import Mathlib

/-!
# Verification of the llamabot chat-completion bridge (`SimpleBot`)

Shallow embedding of `src/llamabot/bot/simplebot.py` together with the
external collaborators it uses (message model, recorder, configuration),
which live in modules of this repository that are not part of the sources
given here and are therefore modelled from the specification.

The embedding makes effects explicit:
* exceptions become `Except Fault`,
* the remote completion client becomes a function from the request
  arguments to `Except Fault Response`,
* side effects (the recorder invocation, incremental printing of stream
  chunks) become explicit traces returned alongside the result.
-/

/-- A fault raised by a collaborator (transport or API-level error from the
client, or a recorder failure).  Faults are identified by value so we can
state that a fault is re-raised *unmodified*. -/
abbrev Fault := String

/-- Message roles.  Modelled from the spec: `role` is an enum
`system | user | assistant`. -/
inductive Role where
  | system
  | user
  | assistant
deriving Repr, DecidableEq

/-- Modelled from the spec: the message model of `llamabot.components.messages`
(absent from the given sources).  Each message variant exposes a role tag and
a content field.  Python is dynamically typed and the constructor
`AIMessage(content=x)` stores whatever value `x` it is given, so content is a
dynamic value: either a text string or another message value.  This is what
lets `simplebot.py` store an `AIMessage` inside the `content` of another
`AIMessage`. -/
inductive PyVal where
  /-- a plain text string -/
  | str (s : String)
  /-- a message value with a role tag and a content value -/
  | message (role : Role) (content : PyVal)
deriving Repr, DecidableEq

/-- Constructor `SystemMessage(content=s)`. -/
def SystemMessage (s : String) : PyVal := PyVal.message Role.system (PyVal.str s)

/-- Constructor `HumanMessage(content=s)`. -/
def HumanMessage (s : String) : PyVal := PyVal.message Role.user (PyVal.str s)

/-- Constructor `AIMessage(content=c)` — it accepts any value for `content`,
exactly as the Python constructor does. -/
def AIMessage (c : PyVal) : PyVal := PyVal.message Role.assistant c

/-- The content attribute of a message value (`m.content`); a plain string has
no such attribute. -/
def PyVal.content : PyVal → Option PyVal
  | PyVal.str _ => none
  | PyVal.message _ c => some c

/-- The plain key-value record `{role, content}` a message serializes to for
transmission to the remote client. -/
structure MessageDict where
  role : Role
  content : PyVal
deriving Repr, DecidableEq

/-- Serialization `m.model_dump()`: serialize a message to its `{role, content}` record.
A plain string has no `model_dump` attribute, hence `Option`. -/
def PyVal.model_dump : PyVal → Option MessageDict
  | PyVal.str _ => none
  | PyVal.message r c => some ⟨r, c⟩

/-- The response of the completion client, per the external client interface
of the spec: either an iterable of chunks, each optionally carrying a content
fragment (`chunk.choices[0].delta.content`, `none` = null content), or a
single completed payload carrying final text (`response.choices[0].text`). -/
inductive Response where
  | streamed (chunks : List (Option String))
  | payload (text : String)
deriving Repr, DecidableEq

/-- The arguments `client.chat.completions.create` is called with. -/
structure CreateArgs where
  model : String
  messages : List MessageDict
  temperature : Rat
  stream : Bool

/-- A completion client: `create` either returns a response or raises a
transport/API-level fault. -/
abbrev Client := CreateArgs → Except Fault Response

/-- The underlying recorder collaborator; it may fail. -/
abbrev Recorder := String → PyVal → Except Fault Unit

/-- Modelled from the spec: `autorecord` of `llamabot.recorder` (absent from
the given sources).  Its contract: persists or logs the exchange, and any
fault in this best-effort logging side effect is fully contained — it must
never raise in a way that aborts the caller's bot invocation. -/
def autorecord (recorder : Recorder) (human_message : String)
    (response : PyVal) : Unit :=
  match recorder human_message response with
  | Except.ok _ => ()
  | Except.error _ => ()

/-- The process-wide configuration: it determines the default model name. -/
abbrev Config := String

/-- Modelled from the spec: `default_language_model` of `llamabot.config`
(absent from the given sources) — looks up the process-wide configured
default model name. -/
def default_language_model (cfg : Config) : String := cfg

/-- The configuration fields held by a `SimpleBot` instance, set by
`SimpleBot.__init__`. -/
structure SimpleBot where
  system_prompt : PyVal
  client : Client
  model_name : String
  temperature : Rat
  streaming : Bool

/-- Constructor `SimpleBot.__init__` with every argument supplied explicitly.
`make_client` is the client factory collaborator. -/
def SimpleBot.init (make_client : String → Client) (system_prompt : String)
    (temperature : Rat) (model_name : String) (streaming : Bool) : SimpleBot :=
  { system_prompt := SystemMessage system_prompt
    client := make_client model_name
    model_name := model_name
    temperature := temperature
    streaming := streaming }

/-- The default parameter values of `SimpleBot.__init__`.  In Python a
default parameter value is evaluated once, when the enclosing `def` (here:
the class body) is evaluated; the resulting objects are stored on the
function object and reused by every later call that omits the argument. -/
structure SimpleBotDefaults where
  temperature : Rat
  model_name : String
  streaming : Bool

/-- Evaluating the `SimpleBot` class definition under the process-wide
configuration `cfg`: the defaults `temperature=0.0`,
`model_name=default_language_model()`, `streaming=True` are computed at this
moment, with `default_language_model()` called once against `cfg`. -/
def SimpleBot.classDefaults (cfg : Config) : SimpleBotDefaults :=
  { temperature := 0
    model_name := default_language_model cfg
    streaming := true }

/-- Constructing a bot while omitting `temperature`, `model_name` and
`streaming`: the captured defaults are used.  `currentCfg` is the
process-wide configuration at construction time; per Python semantics it
plays no part, because the default was already evaluated at class-definition
time. -/
def SimpleBot.initOmittingAll (defaults : SimpleBotDefaults)
    (make_client : String → Client) (currentCfg : Config)
    (system_prompt : String) : SimpleBot :=
  let _ := currentCfg
  SimpleBot.init make_client system_prompt defaults.temperature
    defaults.model_name defaults.streaming

/-- The message sequence `__call__` assembles:
`[self.system_prompt, HumanMessage(content=human_message)]`. -/
def SimpleBot.assembleMessages (bot : SimpleBot) (human_message : String) :
    List PyVal :=
  [bot.system_prompt, HumanMessage human_message]

/-- The streaming loop of `generate_response`:
```
ai_message = ""
for chunk in response:
    if chunk.choices[0].delta.content is not None:
        print(chunk.choices[0].delta.content, end="")
        ai_message += chunk.choices[0].delta.content
```
Returns the accumulator together with the list of fragments printed, in
order. -/
def consumeChunks (chunks : List (Option String)) : String × List String :=
  chunks.foldl
    (fun st c =>
      match c with
      | some s => (st.1 ++ s, st.2 ++ [s])
      | none => st)
    ("", [])

/-- Consuming the client's response in `generate_response`, after the
`create` call returned.  On the streaming path the accumulated text is
wrapped as `AIMessage(content=ai_message)` and that message value is
returned; on the non-streaming path `response.choices[0].text` is returned
as plain text.  The second component is the list of fragments printed to the
output sink.  A response whose shape does not match the flag would make the
Python code raise (iterating a non-iterable payload, or reading `.text` off
a stream object). -/
def consumeResponse (streaming : Bool) (resp : Response) :
    Except Fault (PyVal × List String) :=
  if streaming then
    match resp with
    | Response.streamed chunks =>
        let (acc, printed) := consumeChunks chunks
        Except.ok (AIMessage (PyVal.str acc), printed)
    | Response.payload _ => Except.error "TypeError: payload is not iterable"
  else
    match resp with
    | Response.payload t => Except.ok (PyVal.str t, [])
    | Response.streamed _ => Except.error "AttributeError: stream has no text"

/-- Method `SimpleBot.generate_response`: serialize each message with
`model_dump()`, call `client.chat.completions.create` with the model name,
serialized messages, temperature and stream flag, and consume the response.
A client fault propagates unhandled.  The `List String` component is the
print trace of the streaming loop. -/
def SimpleBot.generate_response (bot : SimpleBot) (messages : List PyVal) :
    Except Fault (PyVal × List String) :=
  match messages.mapM PyVal.model_dump with
  | none => Except.error "AttributeError: no model_dump"
  | some dicts =>
      match bot.client ⟨bot.model_name, dicts, bot.temperature, bot.streaming⟩ with
      | Except.error e => Except.error e
      | Except.ok resp => consumeResponse bot.streaming resp

/-- Specification-side description of the streaming accumulation: the
concatenation, in arrival order, of exactly the non-null chunk contents.
Used to compare the loop of `generate_response` against the spec's words. -/
def joinContents : List (Option String) → String
  | [] => ""
  | none :: rest => joinContents rest
  | some s :: rest => s ++ joinContents rest

/-- The observable outcome of one `__call__`: the returned value or the
fault raised, the list of `autorecord` invocations (their arguments), and
the fragments printed while streaming. -/
structure CallResult where
  result : Except Fault PyVal
  recorded : List (String × PyVal)
  printed : List String
deriving Repr

/-- Method `SimpleBot.__call__` with the generation step abstracted (the repository
test replaces `bot.generate_response` by a mock, so the call is stated over
an arbitrary generation function `gen`):
```
messages = [self.system_prompt, HumanMessage(content=human_message)]
response = self.generate_response(messages)
autorecord(human_message, response)
return AIMessage(content=response)
```
A generation fault propagates before `autorecord` runs. -/
def SimpleBot.callWith (bot : SimpleBot)
    (gen : List PyVal → Except Fault (PyVal × List String))
    (recorder : Recorder) (human_message : String) : CallResult :=
  match gen (bot.assembleMessages human_message) with
  | Except.error e => ⟨Except.error e, [], []⟩
  | Except.ok (response, printed) =>
      let _ := autorecord recorder human_message response
      ⟨Except.ok (AIMessage response), [(human_message, response)], printed⟩

/-- Method `SimpleBot.__call__` with the real generation step. -/
def SimpleBot.call (bot : SimpleBot) (recorder : Recorder)
    (human_message : String) : CallResult :=
  bot.callWith bot.generate_response recorder human_message

/-- Method `__call__` as a state transition: the method body assigns to no instance
field, so the post-state is the receiver unchanged. -/
def SimpleBot.callSt (bot : SimpleBot) (recorder : Recorder)
    (human_message : String) : SimpleBot × CallResult :=
  (bot, bot.call recorder human_message)

/-- A whole sequence of calls, threading the instance state. -/
def SimpleBot.callSeq (bot : SimpleBot) :
    List (Recorder × String) → SimpleBot × List CallResult
  | [] => (bot, [])
  | (rec, h) :: rest =>
      let (bot', r) := bot.callSt rec h
      let (bot'', rs) := SimpleBot.callSeq bot' rest
      (bot'', r :: rs)

/-! ## Helper lemmas -/

/-- String append is associative. -/
lemma string_append_assoc (a b c : String) : (a ++ b) ++ c = a ++ (b ++ c) := by
  ext1
  simp

/-- The streaming loop, started from any accumulator state, appends exactly
the non-null contents in arrival order, both to the text accumulator and to
the print trace. -/
lemma consumeChunks_foldl (chunks : List (Option String)) (a : String)
    (l : List String) :
    chunks.foldl
      (fun st c =>
        match c with
        | some s => (st.1 ++ s, st.2 ++ [s])
        | none => st)
      (a, l)
    = (a ++ joinContents chunks, l ++ chunks.filterMap id) := by
  induction chunks generalizing a l with
  | nil => simp [joinContents]
  | cons c rest ih =>
    cases c with
    | none => simpa [joinContents] using ih a l
    | some s =>
      simp only [List.foldl_cons, List.filterMap_cons, joinContents, id_eq]
      rw [ih, string_append_assoc]
      simp

/-- The streaming loop of `generate_response` computes exactly the ordered
concatenation of the non-null chunk contents, and prints exactly those
contents in order. -/
lemma consumeChunks_eq (chunks : List (Option String)) :
    consumeChunks chunks = (joinContents chunks, chunks.filterMap id) := by
  simpa using consumeChunks_foldl chunks "" []

/-! ## Claim theorems -/

/-- C2: in streaming mode, for every finite chunk sequence,
`generate_response` appends each chunk's content to the accumulator in
arrival order exactly when that content is non-null — the accumulated result
is the ordered concatenation of the non-null contents (and those are also
exactly the printed fragments, in order); in particular the chunk sequence
`[some "Hel", some "lo", none, some " world"]` accumulates to
`"Hello world"`. -/
theorem generate_response_streaming_accumulates
    (bot : SimpleBot) (messages : List PyVal) (dicts : List MessageDict)
    (chunks : List (Option String))
    (hstream : bot.streaming = true)
    (hser : messages.mapM PyVal.model_dump = some dicts)
    (hclient : bot.client ⟨bot.model_name, dicts, bot.temperature, bot.streaming⟩
      = Except.ok (Response.streamed chunks)) :
    bot.generate_response messages
      = Except.ok (AIMessage (PyVal.str (joinContents chunks)),
          chunks.filterMap id)
    ∧ joinContents [some "Hel", some "lo", none, some " world"]
      = "Hello world" := by
  refine ⟨?_, rfl⟩
  rw [hstream] at hclient
  simp only [SimpleBot.generate_response, hser, hstream, hclient,
    consumeResponse, if_true, consumeChunks_eq]

/-- C2 witness: a concrete streaming bot whose client yields the chunk
sequence `["Hel", "lo", null, " world"]` accumulates `"Hello world"`. -/
theorem generate_response_streaming_accumulates_witness :
    (SimpleBot.init
        (fun _ _ => Except.ok
          (Response.streamed [some "Hel", some "lo", none, some " world"]))
        "sys" 0 "m" true).generate_response
        [SystemMessage "sys", HumanMessage "hi"]
      = Except.ok
          (AIMessage (PyVal.str
            (joinContents [some "Hel", some "lo", none, some " world"])),
           ["Hel", "lo", " world"])
    ∧ joinContents [some "Hel", some "lo", none, some " world"]
      = "Hello world" :=
  generate_response_streaming_accumulates _ _
    [⟨Role.system, PyVal.str "sys"⟩, ⟨Role.user, PyVal.str "hi"⟩]
    [some "Hel", some "lo", none, some " world"] rfl rfl rfl

/-- C3: the return shape of `generate_response` depends on the streaming
flag.  Streaming: the fully accumulated text is returned wrapped as an AI
message value.  Non-streaming: the single payload's text is returned as
plain unwrapped text.  A wrapped AI message value is never a plain string,
so the two shapes really differ. -/
theorem generate_response_return_shape
    (bot : SimpleBot) (messages : List PyVal) (dicts : List MessageDict)
    (hser : messages.mapM PyVal.model_dump = some dicts) :
    (∀ chunks, bot.streaming = true →
      bot.client ⟨bot.model_name, dicts, bot.temperature, true⟩
          = Except.ok (Response.streamed chunks) →
      bot.generate_response messages
        = Except.ok (AIMessage (PyVal.str (joinContents chunks)),
            chunks.filterMap id))
    ∧ (∀ text, bot.streaming = false →
      bot.client ⟨bot.model_name, dicts, bot.temperature, false⟩
          = Except.ok (Response.payload text) →
      bot.generate_response messages = Except.ok (PyVal.str text, []))
    ∧ (∀ (c : PyVal) (s : String), AIMessage c ≠ PyVal.str s) := by
  refine ⟨?_, ?_, ?_⟩
  · intro chunks hstream hclient
    simp only [SimpleBot.generate_response, hser, hstream, hclient,
      consumeResponse, if_true, consumeChunks_eq]
  · intro text hstream hclient
    simp only [SimpleBot.generate_response, hser, hstream, hclient,
      consumeResponse, if_false, Bool.false_eq_true]
  · intro c s h
    exact PyVal.noConfusion h

/-- C3 witness: a concrete non-streaming bot whose client yields the payload
`"Hi there"` returns the plain string `"Hi there"`. -/
theorem generate_response_return_shape_witness :
    (SimpleBot.init (fun _ _ => Except.ok (Response.payload "Hi there"))
        "sys" 0 "m" false).generate_response
        [SystemMessage "sys", HumanMessage "q"]
      = Except.ok (PyVal.str "Hi there", []) :=
  (generate_response_return_shape
    (SimpleBot.init (fun _ _ => Except.ok (Response.payload "Hi there"))
      "sys" 0 "m" false)
    [SystemMessage "sys", HumanMessage "q"]
    [⟨Role.system, PyVal.str "sys"⟩, ⟨Role.user, PyVal.str "q"⟩]
    rfl).2.1 "Hi there" rfl rfl

/-- C9: when streaming is on, `generate_response` returns an `AIMessage`
value rather than a string (despite its declared `str` return type), so
`__call__` passes that `AIMessage` — not plain text — to the recorder and
returns `AIMessage(content=<AIMessage>)`: one AI message nested inside
another, instead of an AI message whose content is the accumulated text. -/
theorem streaming_call_nests_ai_message
    (mk : String → Client) (sp mn : String) (t : Rat) (recorder : Recorder)
    (human : String) (chunks : List (Option String))
    (hclient : ∀ args, mk mn args = Except.ok (Response.streamed chunks)) :
    (SimpleBot.init mk sp t mn true).generate_response
        ((SimpleBot.init mk sp t mn true).assembleMessages human)
      = Except.ok (AIMessage (PyVal.str (joinContents chunks)),
          chunks.filterMap id)
    ∧ (∀ s, AIMessage (PyVal.str (joinContents chunks)) ≠ PyVal.str s)
    ∧ ((SimpleBot.init mk sp t mn true).call recorder human).recorded
      = [(human, AIMessage (PyVal.str (joinContents chunks)))]
    ∧ ((SimpleBot.init mk sp t mn true).call recorder human).result
      = Except.ok (AIMessage (AIMessage (PyVal.str (joinContents chunks)))) := by
  have hgen : (SimpleBot.init mk sp t mn true).generate_response
      ((SimpleBot.init mk sp t mn true).assembleMessages human)
      = Except.ok (AIMessage (PyVal.str (joinContents chunks)),
          chunks.filterMap id) := by
    simp only [SimpleBot.generate_response, SimpleBot.assembleMessages,
      SimpleBot.init, SystemMessage, HumanMessage, List.mapM_cons,
      List.mapM_nil, PyVal.model_dump, Option.pure_def, Option.bind_eq_bind,
      Option.bind_some, hclient, consumeResponse, if_true, consumeChunks_eq]
    rfl
  refine ⟨hgen, fun s h => PyVal.noConfusion h, ?_, ?_⟩ <;>
    simp only [SimpleBot.call, SimpleBot.callWith, hgen]

/-- C9 witness: a concrete streaming bot with chunks `["He", "y"]` records
the inner AI message and returns the nested AI message. -/
theorem streaming_call_nests_ai_message_witness :
    ((SimpleBot.init
        (fun _ _ => Except.ok (Response.streamed [some "He", some "y"]))
        "sys" 0 "m" true).call (fun _ _ => Except.ok ()) "hi").result
      = Except.ok
          (AIMessage (AIMessage (PyVal.str (joinContents [some "He", some "y"])))) :=
  (streaming_call_nests_ai_message
    (fun _ _ => Except.ok (Response.streamed [some "He", some "y"]))
    "sys" "m" 0 (fun _ _ => Except.ok ()) "hi" [some "He", some "y"]
    (fun _ => rfl)).2.2.2

/-- C1 (code behavior at the failing input): with the generation step mocked
to return the fixed AI message `R = AIMessage(content="Test response")` —
the scenario of the repository test `test_simple_bot_call` — the call
invokes the recorder exactly once with the human message, but its result is
`AIMessage(content=R)`: the returned message's content is the message `R`
itself, not `R`'s content `"Test response"`, contradicting the claim and the
test's assertion `result.content == "Test response"`. -/
theorem mocked_call_content_is_nested_message :
    ((SimpleBot.init (fun _ _ => Except.error "unused") "system" 0 "gpt"
        true).callWith
        (fun _ => Except.ok (AIMessage (PyVal.str "Test response"), []))
        (fun _ _ => Except.ok ()) "hi").result
      = Except.ok (AIMessage (AIMessage (PyVal.str "Test response")))
    ∧ ((SimpleBot.init (fun _ _ => Except.error "unused") "system" 0 "gpt"
        true).callWith
        (fun _ => Except.ok (AIMessage (PyVal.str "Test response"), []))
        (fun _ _ => Except.ok ()) "hi").recorded
      = [("hi", AIMessage (PyVal.str "Test response"))]
    ∧ (AIMessage (AIMessage (PyVal.str "Test response"))).content
      = some (AIMessage (PyVal.str "Test response"))
    ∧ (AIMessage (PyVal.str "Test response")).content
      = some (PyVal.str "Test response")
    ∧ (AIMessage (AIMessage (PyVal.str "Test response"))).content
      ≠ (AIMessage (PyVal.str "Test response")).content :=
  ⟨rfl, rfl, rfl, rfl, by decide⟩

/-- C4: if the client raises a fault during the generation step, `__call__`
raises the very same fault value to the caller — no retry, no wrapping, no
partial response — and the recorder is never invoked (the record trace is
empty). -/
theorem client_fault_propagates_and_no_record
    (mk : String → Client) (sp mn : String) (t : Rat) (st : Bool)
    (recorder : Recorder) (human : String) (e : Fault)
    (hclient : ∀ args, mk mn args = Except.error e) :
    (SimpleBot.init mk sp t mn st).call recorder human
      = ⟨Except.error e, [], []⟩ := by
  simp only [SimpleBot.call, SimpleBot.callWith, SimpleBot.generate_response,
    SimpleBot.assembleMessages, SimpleBot.init, SystemMessage, HumanMessage,
    List.mapM_cons, List.mapM_nil, PyVal.model_dump, Option.pure_def,
    Option.bind_eq_bind, Option.some_bind, hclient]

/-- C4 witness: a concrete bot whose client always raises
`"APIError: boom"` surfaces exactly that fault and records nothing. -/
theorem client_fault_propagates_and_no_record_witness :
    (SimpleBot.init (fun _ _ => Except.error "APIError: boom")
        "sys" 0 "m" true).call (fun _ _ => Except.ok ()) "hi"
      = ⟨Except.error "APIError: boom", [], []⟩ :=
  client_fault_propagates_and_no_record
    (fun _ _ => Except.error "APIError: boom") "sys" "m" 0 true
    (fun _ _ => Except.ok ()) "hi" "APIError: boom" (fun _ => rfl)

/-- C5: any fault of the recorder collaborator is contained by `autorecord`
and never propagated: for every recorder — including an always-failing one —
a call whose generation step succeeds still returns its AI message, and the
call's outcome does not depend on the recorder at all. -/
theorem recorder_fault_never_propagates
    (bot : SimpleBot) (gen : List PyVal → Except Fault (PyVal × List String))
    (recorder recorder' : Recorder) (human : String)
    (response : PyVal) (printed : List String)
    (hgen : gen (bot.assembleMessages human) = Except.ok (response, printed)) :
    bot.callWith gen recorder human
      = ⟨Except.ok (AIMessage response), [(human, response)], printed⟩
    ∧ bot.callWith gen recorder human = bot.callWith gen recorder' human := by
  constructor <;> simp only [SimpleBot.callWith, hgen]

/-- C5 witness: with a recorder that always fails with
`"RecorderError: disk full"`, the call still returns its AI message. -/
theorem recorder_fault_never_propagates_witness :
    (SimpleBot.init (fun _ _ => Except.error "unused") "sys" 0 "m"
        false).callWith (fun _ => Except.ok (PyVal.str "ok", []))
        (fun _ _ => Except.error "RecorderError: disk full") "hi"
      = ⟨Except.ok (AIMessage (PyVal.str "ok")), [("hi", PyVal.str "ok")], []⟩ :=
  (recorder_fault_never_propagates
    (SimpleBot.init (fun _ _ => Except.error "unused") "sys" 0 "m" false)
    (fun _ => Except.ok (PyVal.str "ok", []))
    (fun _ _ => Except.error "RecorderError: disk full")
    (fun _ _ => Except.ok ()) "hi" (PyVal.str "ok") [] rfl).1

/-- C6: for all valid constructor arguments (system-prompt text, temperature
in `[0,1]`, model-name string, streaming flag), the constructed bridge's
configuration fields exactly equal the supplied arguments with no
normalization — the stored system prompt is a System message whose content
equals the supplied string, and `model_name`, `temperature` and `streaming`
are stored verbatim — with defaults `temperature = 0.0` and
`streaming = true` when omitted. -/
theorem init_stores_arguments_verbatim
    (mk : String → Client) (sp mn : String) (t : Rat) (st : Bool)
    (cfg : Config) (ht0 : 0 ≤ t) (ht1 : t ≤ 1) :
    (SimpleBot.init mk sp t mn st).system_prompt
        = PyVal.message Role.system (PyVal.str sp)
    ∧ (SimpleBot.init mk sp t mn st).model_name = mn
    ∧ (SimpleBot.init mk sp t mn st).temperature = t
    ∧ (SimpleBot.init mk sp t mn st).streaming = st
    ∧ (SimpleBot.init mk sp t mn st).client = mk mn
    ∧ (SimpleBot.classDefaults cfg).temperature = 0
    ∧ (SimpleBot.classDefaults cfg).streaming = true
    ∧ (SimpleBot.initOmittingAll (SimpleBot.classDefaults cfg) mk cfg
        sp).temperature = 0
    ∧ (SimpleBot.initOmittingAll (SimpleBot.classDefaults cfg) mk cfg
        sp).streaming = true :=
  ⟨rfl, rfl, rfl, rfl, rfl, rfl, rfl, rfl, rfl⟩

/-- C6 witness: a concrete construction with temperature `1/2 ∈ [0,1]`
stores `model_name = "gpt-4"` and `temperature = 1/2` verbatim. -/
theorem init_stores_arguments_verbatim_witness :
    (SimpleBot.init (fun _ _ => Except.error "unused") "be nice" (1/2)
        "gpt-4" false).model_name = "gpt-4"
    ∧ (SimpleBot.init (fun _ _ => Except.error "unused") "be nice" (1/2)
        "gpt-4" false).temperature = 1/2 :=
  ⟨(init_stores_arguments_verbatim (fun _ _ => Except.error "unused")
      "be nice" "gpt-4" (1/2) false "cfg" (by norm_num) (by norm_num)).2.1,
   (init_stores_arguments_verbatim (fun _ _ => Except.error "unused")
      "be nice" "gpt-4" (1/2) false "cfg" (by norm_num) (by norm_num)).2.2.1⟩

/-- C7: `__call__` mutates none of the instance's configuration fields —
after any sequence of calls, the instance state, field by field, equals its
value at construction; no conversation state persists across invocations. -/
theorem call_mutates_no_fields
    (bot : SimpleBot) (inputs : List (Recorder × String)) :
    (SimpleBot.callSeq bot inputs).1 = bot
    ∧ (SimpleBot.callSeq bot inputs).1.system_prompt = bot.system_prompt
    ∧ (SimpleBot.callSeq bot inputs).1.client = bot.client
    ∧ (SimpleBot.callSeq bot inputs).1.model_name = bot.model_name
    ∧ (SimpleBot.callSeq bot inputs).1.temperature = bot.temperature
    ∧ (SimpleBot.callSeq bot inputs).1.streaming = bot.streaming := by
  have h : (SimpleBot.callSeq bot inputs).1 = bot := by
    induction inputs with
    | nil => rfl
    | cons p rest ih =>
      cases p with
      | mk r hm => simpa [SimpleBot.callSeq, SimpleBot.callSt] using ih
  exact ⟨h, by rw [h], by rw [h], by rw [h], by rw [h], by rw [h]⟩

/-- C8: for every human-message string, including the empty string,
`__call__` assembles exactly the ordered two-element sequence
`[System (fixed at construction), Human (the supplied string unchanged)]`
and hands it to the generation step, where each message is serialized to its
`{role, content}` record; the client receives exactly those records together
with the configured model name, temperature and stream flag. -/
theorem call_assembles_and_serializes
    (mk : String → Client) (sp mn : String) (t : Rat) (st : Bool)
    (recorder : Recorder) (human : String) :
    (SimpleBot.init mk sp t mn st).assembleMessages human
      = [PyVal.message Role.system (PyVal.str sp),
         PyVal.message Role.user (PyVal.str human)]
    ∧ ((SimpleBot.init mk sp t mn st).assembleMessages human).mapM
        PyVal.model_dump
      = some [⟨Role.system, PyVal.str sp⟩, ⟨Role.user, PyVal.str human⟩]
    ∧ (SimpleBot.init mk sp t mn st).call recorder human
      = (match
          mk mn ⟨mn,
            [⟨Role.system, PyVal.str sp⟩, ⟨Role.user, PyVal.str human⟩],
            t, st⟩ with
        | Except.error e => ⟨Except.error e, [], []⟩
        | Except.ok resp =>
            match consumeResponse st resp with
            | Except.error e => ⟨Except.error e, [], []⟩
            | Except.ok (response, printed) =>
                ⟨Except.ok (AIMessage response), [(human, response)],
                  printed⟩) := by
  refine ⟨rfl, rfl, ?_⟩
  simp only [SimpleBot.call, SimpleBot.callWith, SimpleBot.generate_response,
    SimpleBot.assembleMessages, SimpleBot.init, SystemMessage, HumanMessage,
    List.mapM_cons, List.mapM_nil, PyVal.model_dump, Option.pure_def,
    Option.bind_eq_bind, Option.some_bind]
  cases mk mn ⟨mn, [⟨Role.system, PyVal.str sp⟩, ⟨Role.user, PyVal.str human⟩],
      t, st⟩ with
  | error e => rfl
  | ok resp =>
    cases consumeResponse st resp with
    | error e => rfl
    | ok pr => rfl

/-- C10: the default model name is resolved exactly once, at
class-definition time: every bridge constructed without an explicit model
name receives the value of `default_language_model()` captured when the
class body was evaluated, unaffected by the process-wide configuration in
force at construction time. -/
theorem default_model_resolved_once_at_class_definition
    (cfg0 cfg1 cfg2 : Config) (mk : String → Client) (sp sp' : String) :
    (SimpleBot.initOmittingAll (SimpleBot.classDefaults cfg0) mk cfg1
        sp).model_name = default_language_model cfg0
    ∧ (SimpleBot.initOmittingAll (SimpleBot.classDefaults cfg0) mk cfg2
        sp').model_name
      = (SimpleBot.initOmittingAll (SimpleBot.classDefaults cfg0) mk cfg1
        sp).model_name :=
  ⟨rfl, rfl⟩
